import Mathlib

/-!
Shallow embedding of the DCF valuation engine of this repository
(src/app.py and src/streamlit_app.py) over exact rationals, together with
theorems settling the specification claims.

Conventions of the embedding:
* Python floats are modelled by the rationals; every arithmetic expression
  is transcribed literally from the source.
* Python raises ZeroDivisionError on a literal zero divisor.  Where the
  source wraps the division in try/except (streamlit_app.py lines 259-262,
  348-351), the handler is modelled by an explicit zero test returning the
  sentinel 0.  Where the source leaves the division unprotected
  (app.py line 52), the operation is modelled as an Option, none standing
  for the unhandled exception.
* Rates are decimal fractions: app.py divides the entered percentages by
  100 at input time, and streamlit_app.py carries growth_rate and
  terminal_growth in percent, dividing by 100 at each use site; both
  variants compute the same expressions of the decimal rates, which is
  what the definitions below take as arguments.
-/

namespace DCFApp

/-- Per-year discounted cash flows.  From streamlit_app.py lines 251-255 and
app.py lines 43-48: for i = 1..years, future = fcf * (1+g)^i, entry
i = future / (1+d)^i, appended in order. -/
def fcf_list (fcf g d : ℚ) (years : ℕ) : List ℚ :=
  (List.range years).map (fun i => fcf * (1 + g) ^ (i + 1) / (1 + d) ^ (i + 1))

/-- Last projected (un-discounted) cash flow, streamlit_app.py line 258 and
app.py line 51. -/
def last_fcf (fcf g : ℚ) (years : ℕ) : ℚ := fcf * (1 + g) ^ years

/-- Gordon-growth terminal value as computed by streamlit_app.py lines
259-262: the try/except returns the sentinel 0.0 exactly when the divisor
is zero, and otherwise the raw quotient (negative when d < tg). -/
def terminal_value (fcf g : ℚ) (years : ℕ) (d tg : ℚ) : ℚ :=
  if d - tg = 0 then 0 else last_fcf fcf g years * (1 + tg) / (d - tg)

/-- Terminal value as computed by app.py line 52, where the division is not
guarded: a zero divisor raises an unhandled ZeroDivisionError, modelled by
none. -/
def terminal_value_app (fcf g : ℚ) (years : ℕ) (d tg : ℚ) : Option ℚ :=
  if d - tg = 0 then none else some (last_fcf fcf g years * (1 + tg) / (d - tg))

/-- Discounted terminal value, streamlit_app.py line 263 / app.py line 53. -/
def discounted_terminal (fcf g : ℚ) (years : ℕ) (d tg : ℚ) : ℚ :=
  terminal_value fcf g years d tg / (1 + d) ^ years

/-- Intrinsic value, streamlit_app.py line 265 / app.py line 56:
dcf_value = sum(fcf_list) + discounted_terminal. -/
def dcf_value (fcf g : ℚ) (years : ℕ) (d tg : ℚ) : ℚ :=
  (fcf_list fcf g d years).sum + discounted_terminal fcf g years d tg

/-- The verdicts the app can render; unknown stands for the states where the
code shows no badge. -/
inductive Verdict
  | undervalued
  | overvalued
  | fairlyValued
  | unknown
deriving DecidableEq, Repr

/-- Verdict logic of streamlit_app.py lines 299-307.  The Python guard
`if current_price:` is truthiness: it skips the badge both when
current_price is None and when it is 0.0, so both map to unknown.  Inside,
upper = p*(1+mos), lower = p*(1-mos), and the chain is
implied >= upper, elif implied <= lower, else fair. -/
def verdictOf (implied : ℚ) (current_price : Option ℚ) (mos : ℚ) : Verdict :=
  match current_price with
  | none => Verdict.unknown
  | some p =>
    if p = 0 then Verdict.unknown
    else if p * (1 + mos) ≤ implied then Verdict.undervalued
    else if implied ≤ p * (1 - mos) then Verdict.overvalued
    else Verdict.fairlyValued

/-- Implied share price, streamlit_app.py lines 274-309: shares_outstanding
defaults to 0 on any missing or failing fetch, and the division happens
only inside the `if shares_outstanding > 0` branch; otherwise no price is
produced (none). -/
def implied_price (dcf : ℚ) (shares : ℤ) : Option ℚ :=
  if 0 < shares then some (dcf / (shares : ℚ)) else none

/-- WACC of streamlit_app.py lines 229-238: equity and debt weights over
total capital, 10% cost of equity, 5% cost of debt after tax; 0.0 when the
total is not positive. -/
def wacc (equity debt tax : ℚ) : ℚ :=
  if 0 < equity + debt then
    equity / (equity + debt) * (10 / 100) +
      debt / (equity + debt) * (5 / 100) * (1 - tax / 100)
  else 0

/-- Candidate discount rates of the sensitivity table,
streamlit_app.py line 338. -/
def discount_rates : List ℚ := [8/100, 9/100, 10/100, 11/100, 12/100]

/-- Candidate growth rates of the sensitivity table,
streamlit_app.py line 339. -/
def growth_rates : List ℚ := [1/100, 2/100, 3/100, 4/100, 5/100]

/-- Constant-FCF discounted stream of a sensitivity cell,
streamlit_app.py lines 345-347. -/
def cellIntrinsic (fcf : ℚ) (years : ℕ) (r : ℚ) : ℚ :=
  ((List.range years).map (fun i => fcf / (1 + r) ^ (i + 1))).sum

/-- Terminal part of a sensitivity cell, streamlit_app.py lines 348-352:
the try/except yields 0.0 exactly on a zero divisor, and the result is then
divided by (1+r)^years outside the try. -/
def cellTerminal (fcf : ℚ) (years : ℕ) (g r : ℚ) : ℚ :=
  (if r - g = 0 then 0 else fcf * (1 + g) / (r - g)) / (1 + r) ^ years

/-- Total value of a sensitivity cell, streamlit_app.py line 353. -/
def cellTotal (fcf : ℚ) (years : ℕ) (g r : ℚ) : ℚ :=
  cellIntrinsic fcf years r + cellTerminal fcf years g r

/-- Rounding to two decimals, modelling Python round(x, 2) at line 354 away
from exact half-cent boundaries (where binary floats decide the tie). -/
def round2 (x : ℚ) : ℚ := (round (x * 100) : ℚ) / 100

/-- Sensitivity table of streamlit_app.py lines 341-355: one row per growth
rate, one column per discount rate, each cell the rounded total in
millions. -/
def table (fcf : ℚ) (years : ℕ) : List (List ℚ) :=
  growth_rates.map (fun g =>
    discount_rates.map (fun r => round2 (cellTotal fcf years g r / 1000000)))

/-- The i-th (0-based) entry of fcf_list is the closed-form compound
growth/discount expression. -/
lemma fcf_list_getD (fcf g d : ℚ) {years i : ℕ} (h : i < years) :
    (fcf_list fcf g d years).getD i 0 =
      fcf * (1 + g) ^ (i + 1) / (1 + d) ^ (i + 1) := by
  have hlen : i < ((List.range years).map
      (fun i => fcf * (1 + g) ^ (i + 1) / (1 + d) ^ (i + 1))).length := by
    simpa using h
  rw [fcf_list, List.getD_eq_getElem _ _ hlen, List.getElem_map, List.getElem_range]

/-- Claim C2 (confirmed): for discount_rate different from -1 and 1 ≤ i ≤
projection_years, the i-th projected entry equals
base * (1+growth)^i / (1+discount)^i, and a negative base yields negative
entries (rates above -1) rather than an error. -/
theorem C2_projection_formula (fcf g d : ℚ) (years i : ℕ)
    (hd : d ≠ -1) (h1 : 1 ≤ i) (hN : i ≤ years) :
    (fcf_list fcf g d years).getD (i - 1) 0 = fcf * (1 + g) ^ i / (1 + d) ^ i ∧
    (fcf < 0 → -1 < g → -1 < d → (fcf_list fcf g d years).getD (i - 1) 0 < 0) := by
  have hi : i - 1 < years := by omega
  have hsucc : i - 1 + 1 = i := by omega
  have hform := fcf_list_getD fcf g d hi
  rw [hsucc] at hform
  refine ⟨hform, fun hf hg hdl => ?_⟩
  rw [hform]
  have hgp : (0:ℚ) < (1 + g) ^ i := pow_pos (by linarith) i
  have hdp : (0:ℚ) < (1 + d) ^ i := pow_pos (by linarith) i
  exact div_neg_of_neg_of_pos (mul_neg_of_neg_of_pos hf hgp) hdp

/-- Claim C2 witness at base -2, zero rates, year 1 of 5. -/
theorem C2_projection_formula_witness :
    (fcf_list (-2) 0 0 5).getD 0 0 = -2 * (1 + 0) ^ 1 / (1 + 0) ^ 1 ∧
    (fcf_list (-2) 0 0 5).getD 0 0 < 0 :=
  ⟨(C2_projection_formula (-2) 0 0 5 1 (by norm_num) (by norm_num)
      (by norm_num)).1,
   (C2_projection_formula (-2) 0 0 5 1 (by norm_num) (by norm_num)
      (by norm_num)).2 (by norm_num) (by norm_num) (by norm_num)⟩

/-- Claim C3 (confirmed): when discount_rate exceeds terminal_growth_rate
(and differs from -1), the discounted terminal value is the Gordon Growth
value of the last un-discounted flow, discounted over the horizon. -/
theorem C3_terminal_formula (fcf g : ℚ) (years : ℕ) (d tg : ℚ)
    (hgt : tg < d) (hd : d ≠ -1) :
    discounted_terminal fcf g years d tg =
      fcf * (1 + g) ^ years * (1 + tg) / (d - tg) / (1 + d) ^ years := by
  have hne : d - tg ≠ 0 := sub_ne_zero.mpr (ne_of_gt hgt)
  rw [discounted_terminal, terminal_value, if_neg hne, last_fcf]

/-- Claim C3 witness at Scenario A of the spec: base 100, growth 5%,
discount 10%, terminal growth 2%, 5 years. -/
theorem C3_terminal_formula_witness :
    discounted_terminal 100 (1/20) 5 (1/10) (1/50) =
      100 * (1 + 1/20) ^ 5 * (1 + 1/50) / (1/10 - 1/50) / (1 + 1/10) ^ 5 :=
  C3_terminal_formula 100 (1/20) 5 (1/10) (1/50) (by norm_num) (by norm_num)

/-- Claim C4 (confirmed): the intrinsic value is exactly the sum of the
projected entries plus the discounted terminal value, with no other
adjustment; in particular the zero sentinel of the non-convergent case is
propagated as written. -/
theorem C4_aggregator (fcf g : ℚ) (years : ℕ) (d tg : ℚ) :
    dcf_value fcf g years d tg =
      (fcf_list fcf g d years).sum + discounted_terminal fcf g years d tg ∧
    (d = tg → dcf_value fcf g years d tg = (fcf_list fcf g d years).sum) := by
  refine ⟨rfl, fun h => ?_⟩
  rw [dcf_value, discounted_terminal, terminal_value,
    if_pos (by rw [h, sub_self]), zero_div, add_zero]

/-- Claim C4 witness: the sentinel case at discount = terminal growth. -/
theorem C4_aggregator_witness :
    dcf_value 100 0 5 (1/20) (1/20) = (fcf_list 100 0 (1/20) 5).sum :=
  (C4_aggregator 100 0 5 (1/20) (1/20)).2 rfl

/-- Claim C6 (confirmed): non-positive (or defaulted-to-zero missing)
shares_outstanding produces no implied price at all, and positive shares
give intrinsic value divided by shares. -/
theorem C6_implied_price (dcf : ℚ) (shares : ℤ) :
    (shares ≤ 0 → implied_price dcf shares = none) ∧
    (0 < shares → implied_price dcf shares = some (dcf / (shares : ℚ))) := by
  constructor
  · intro h
    rw [implied_price, if_neg (not_lt.mpr h)]
  · intro h
    rw [implied_price, if_pos h]

/-- Claim C6 witness: zero shares give none, two shares divide. -/
theorem C6_implied_price_witness :
    implied_price 10 0 = none ∧ implied_price 10 2 = some 5 := by
  refine ⟨(C6_implied_price 10 0).1 (by norm_num), ?_⟩
  rw [(C6_implied_price 10 2).2 (by norm_num)]
  norm_num

/-- Claim C9 (confirmed): the projection has exactly projection_years
entries, zero years give the empty list, and the intrinsic value is then
the discounted terminal value alone. -/
theorem C9_projection_length (fcf g d tg : ℚ) (years : ℕ) (hg : 0 ≤ g) :
    (fcf_list fcf g d years).length = years ∧
    fcf_list fcf g d 0 = [] ∧
    dcf_value fcf g 0 d tg = discounted_terminal fcf g 0 d tg := by
  refine ⟨?_, rfl, ?_⟩
  · simp [fcf_list]
  · simp [dcf_value, fcf_list]

/-- Claim C9 witness at growth 0, 5 years. -/
theorem C9_projection_length_witness :
    (fcf_list 100 0 (1/10) 5).length = 5 ∧
    fcf_list 100 0 (1/10) 0 = [] ∧
    dcf_value 100 0 0 (1/10) (1/50) = discounted_terminal 100 0 0 (1/10) (1/50) :=
  C9_projection_length 100 0 (1/10) (1/50) 5 le_rfl

/-- Claim C10 (confirmed): with nonnegative equity and debt and a tax rate
in [0,100], a positive capital total keeps the WACC inside [0, 10%], and a
zero total collapses the discount rate to exactly 0. -/
theorem C10_wacc_bounds (e d t : ℚ) (he : 0 ≤ e) (hd : 0 ≤ d)
    (ht0 : 0 ≤ t) (ht1 : t ≤ 100) :
    (0 < e + d → 0 ≤ wacc e d t ∧ wacc e d t ≤ 10 / 100) ∧
    (e + d = 0 → wacc e d t = 0) := by
  constructor
  · intro hpos
    rw [wacc, if_pos hpos]
    have hA0 : (0:ℚ) ≤ e / (e + d) := div_nonneg he hpos.le
    have hB0 : (0:ℚ) ≤ d / (e + d) := div_nonneg hd hpos.le
    have hAB : e / (e + d) + d / (e + d) = 1 := by
      rw [div_add_div_same, div_self (ne_of_gt hpos)]
    have ht2 : (0:ℚ) ≤ t / 100 := by positivity
    have ht3 : t / 100 ≤ 1 := (div_le_one (by norm_num)).mpr ht1
    have hBt : (0:ℚ) ≤ d / (e + d) * (t / 100) := mul_nonneg hB0 ht2
    constructor
    · have h1 : (0:ℚ) ≤ 1 - t / 100 := by linarith
      exact add_nonneg (mul_nonneg hA0 (by norm_num))
        (mul_nonneg (mul_nonneg hB0 (by norm_num)) h1)
    · nlinarith [hAB, hA0, hB0, hBt]
  · intro h0
    rw [wacc, if_neg (by rw [h0]; exact lt_irrefl 0)]

/-- Claim C10 witness: equity 3, debt 1, tax 21% stays in range; empty
capital structure gives 0. -/
theorem C10_wacc_bounds_witness :
    (0 ≤ wacc 3 1 21 ∧ wacc 3 1 21 ≤ 10 / 100) ∧ wacc 0 0 21 = 0 :=
  ⟨(C10_wacc_bounds 3 1 21 (by norm_num) (by norm_num) (by norm_num)
      (by norm_num)).1 (by norm_num),
   (C10_wacc_bounds 0 0 21 (by norm_num) (by norm_num) (by norm_num)
      (by norm_num)).2 (by norm_num)⟩

/-- Claim C1 counterexample: at discount 2% and terminal growth 5%
(Scenario C of the spec) the streamlit engine propagates a negative
discounted terminal value, and at discount = terminal growth the app.py
variant raises an unhandled ZeroDivisionError (none). -/
theorem C1_counterexample :
    discounted_terminal 100 0 5 (2/100) (5/100) < 0 ∧
    terminal_value_app 100 0 5 (5/100) (5/100) = none := by
  constructor
  · norm_num [discounted_terminal, terminal_value, last_fcf]
  · norm_num [terminal_value_app]

/-- Claim C1 (corrected): only exact equality of the rates triggers the
zero sentinel in the streamlit engine (and an unhandled fault in app.py);
when discount_rate is strictly below terminal_growth_rate the computed
terminal value is negative and propagates unflagged. -/
theorem C1_nonconvergence (fcf g : ℚ) (years : ℕ) (d tg : ℚ) :
    (d = tg → terminal_value fcf g years d tg = 0 ∧
      terminal_value_app fcf g years d tg = none) ∧
    (0 < fcf → -1 < g → -1 < tg → -1 < d → d < tg →
      discounted_terminal fcf g years d tg < 0) := by
  constructor
  · intro h
    constructor
    · rw [terminal_value, if_pos (by rw [h, sub_self])]
    · rw [terminal_value_app, if_pos (by rw [h, sub_self])]
  · intro hf hg htg hd hlt
    rw [discounted_terminal, terminal_value,
      if_neg (sub_ne_zero.mpr (ne_of_lt hlt)), last_fcf]
    have hgp : (0:ℚ) < (1 + g) ^ years := pow_pos (by linarith) years
    have h1 : (0:ℚ) < fcf * (1 + g) ^ years * (1 + tg) :=
      mul_pos (mul_pos hf hgp) (by linarith)
    have h2 : fcf * (1 + g) ^ years * (1 + tg) / (d - tg) < 0 :=
      div_neg_of_pos_of_neg h1 (by linarith)
    exact div_neg_of_neg_of_pos h2 (pow_pos (by linarith) years)

/-- Claim C1 witness: sentinel and fault at equal rates, negative
propagation below. -/
theorem C1_nonconvergence_witness :
    (terminal_value 50 0 3 (4/100) (4/100) = 0 ∧
      terminal_value_app 50 0 3 (4/100) (4/100) = none) ∧
    discounted_terminal 50 0 3 (1/100) (4/100) < 0 :=
  ⟨(C1_nonconvergence 50 0 3 (4/100) (4/100)).1 rfl,
   (C1_nonconvergence 50 0 3 (1/100) (4/100)).2 (by norm_num) (by norm_num)
     (by norm_num) (by norm_num) (by norm_num)⟩

/-- Claim C5 counterexample: a present current_price of exactly 0 is falsy
in Python, so no verdict is rendered (unknown) even though the claimed rule
(implied ≥ 0 × (1 + mos)) would demand Undervalued. -/
theorem C5_counterexample :
    verdictOf 1 (some 0) (1/4) = Verdict.unknown ∧
    (0 : ℚ) * (1 + 1/4) ≤ 1 ∧
    Verdict.unknown ≠ Verdict.undervalued := by
  refine ⟨rfl, by norm_num, by decide⟩

/-- Claim C5 (corrected): with a present and nonzero current_price the
verdict follows the threshold chain with boundary ties counting as
Undervalued/Overvalued; an absent or zero current_price gives no verdict. -/
theorem C5_verdict (implied p mos : ℚ) :
    (verdictOf implied none mos = Verdict.unknown) ∧
    (verdictOf implied (some 0) mos = Verdict.unknown) ∧
    (p ≠ 0 → p * (1 + mos) ≤ implied →
      verdictOf implied (some p) mos = Verdict.undervalued) ∧
    (p ≠ 0 → implied < p * (1 + mos) → implied ≤ p * (1 - mos) →
      verdictOf implied (some p) mos = Verdict.overvalued) ∧
    (p ≠ 0 → p * (1 - mos) < implied → implied < p * (1 + mos) →
      verdictOf implied (some p) mos = Verdict.fairlyValued) := by
  refine ⟨rfl, by simp [verdictOf], ?_, ?_, ?_⟩
  · intro hp hle
    simp only [verdictOf]
    rw [if_neg hp, if_pos hle]
  · intro hp hlt hle
    simp only [verdictOf]
    rw [if_neg hp, if_neg (not_le.mpr hlt), if_pos hle]
  · intro hp hlo hhi
    simp only [verdictOf]
    rw [if_neg hp, if_neg (not_le.mpr hhi), if_neg (not_le.mpr hlo)]

/-- Claim C5 witness: price 4 and margin 25% give thresholds 5 and 3;
boundary values land on Undervalued/Overvalued and the middle is fair. -/
theorem C5_verdict_witness :
    verdictOf 5 none (1/4) = Verdict.unknown ∧
    verdictOf 5 (some 0) (1/4) = Verdict.unknown ∧
    verdictOf 5 (some 4) (1/4) = Verdict.undervalued ∧
    verdictOf 3 (some 4) (1/4) = Verdict.overvalued ∧
    verdictOf 4 (some 4) (1/4) = Verdict.fairlyValued := by
  refine ⟨(C5_verdict 5 0 (1/4)).1, (C5_verdict 5 0 (1/4)).2.1, ?_, ?_, ?_⟩
  · exact (C5_verdict 5 4 (1/4)).2.2.1 (by norm_num) (by norm_num)
  · exact (C5_verdict 3 4 (1/4)).2.2.2.1 (by norm_num) (by norm_num)
      (by norm_num)
  · exact (C5_verdict 4 4 (1/4)).2.2.2.2 (by norm_num) (by norm_num)
      (by norm_num)

/-- Claim C7 counterexample: with base cash flow 0 the discounted entries
are 0 at every discount rate, so raising the rate from 5% to 10% (both
above terminal growth 0) does not strictly decrease them. -/
theorem C7_counterexample :
    (0:ℚ) < 1/20 ∧ (1/20:ℚ) < 1/10 ∧
    ¬ ((fcf_list 0 0 (1/10) 1).getD 0 0 < (fcf_list 0 0 (1/20) 1).getD 0 0) := by
  refine ⟨by norm_num, by norm_num, ?_⟩
  simp [fcf_list]

/-- Claim C7 (corrected): for positive base cash flow, growth and terminal
growth above -1, and projection_years ≥ 1, a strictly larger discount rate
(still above terminal growth) strictly decreases every discounted entry
and the discounted terminal value. -/
theorem C7_monotone (fcf g tg d1 d2 : ℚ) (years : ℕ)
    (hf : 0 < fcf) (hg : -1 < g) (htg : -1 < tg)
    (h1 : tg < d1) (h12 : d1 < d2) (hy : 1 ≤ years) :
    (∀ i, i < years →
      (fcf_list fcf g d2 years).getD i 0 < (fcf_list fcf g d1 years).getD i 0) ∧
    discounted_terminal fcf g years d2 tg < discounted_terminal fcf g years d1 tg := by
  have hd1 : (-1:ℚ) < d1 := lt_trans htg h1
  have h1p : (0:ℚ) < 1 + d1 := by linarith
  have h2p : (0:ℚ) < 1 + d2 := by linarith
  constructor
  · intro i hi
    rw [fcf_list_getD fcf g d2 hi, fcf_list_getD fcf g d1 hi]
    have hc : (0:ℚ) < fcf * (1 + g) ^ (i + 1) :=
      mul_pos hf (pow_pos (by linarith) _)
    have hpow : (1 + d1) ^ (i + 1) < (1 + d2) ^ (i + 1) :=
      pow_lt_pow_left₀ (by linarith) h1p.le (Nat.succ_ne_zero i)
    exact div_lt_div_of_pos_left hc (pow_pos h1p _) hpow
  · have hne1 : d1 - tg ≠ 0 := sub_ne_zero.mpr (ne_of_gt h1)
    have hne2 : d2 - tg ≠ 0 := sub_ne_zero.mpr (ne_of_gt (lt_trans h1 h12))
    rw [discounted_terminal, discounted_terminal, terminal_value,
      terminal_value, if_neg hne2, if_neg hne1, last_fcf, div_div, div_div]
    have hN : (0:ℚ) < fcf * (1 + g) ^ years * (1 + tg) :=
      mul_pos (mul_pos hf (pow_pos (by linarith) _)) (by linarith)
    have hden1 : (0:ℚ) < (d1 - tg) * (1 + d1) ^ years :=
      mul_pos (by linarith) (pow_pos h1p _)
    have hmul : (d1 - tg) * (1 + d1) ^ years < (d2 - tg) * (1 + d2) ^ years :=
      mul_lt_mul'' (by linarith)
        (pow_lt_pow_left₀ (by linarith) h1p.le (by omega))
        (by linarith) (pow_pos h1p _).le
    exact div_lt_div_of_pos_left hN hden1 hmul

/-- Claim C7 witness: base 100, zero growth rates, discount raised from 5%
to 10%, one year. -/
theorem C7_monotone_witness :
    (fcf_list 100 0 (1/10) 1).getD 0 0 < (fcf_list 100 0 (1/20) 1).getD 0 0 ∧
    discounted_terminal 100 0 1 (1/10) 0 < discounted_terminal 100 0 1 (1/20) 0 :=
  ⟨(C7_monotone 100 0 0 (1/20) (1/10) 1 (by norm_num) (by norm_num)
      (by norm_num) (by norm_num) (by norm_num) (by norm_num)).1 0 (by norm_num),
   (C7_monotone 100 0 0 (1/20) (1/10) 1 (by norm_num) (by norm_num)
      (by norm_num) (by norm_num) (by norm_num) (by norm_num)).2⟩

/-- Claim C8 counterexample: at base 1000000 and one year, the stored cell
for growth 1% and discount 8% is the rounded value in millions, 14.29, not
the intrinsic value 2700000000/189 the claim names. -/
theorem C8_counterexample :
    ((table 1000000 1).getD 0 []).getD 0 0 = 1429/100 ∧
    cellTotal 1000000 1 (1/100) (8/100) = 2700000000/189 ∧
    (1429/100 : ℚ) ≠ 2700000000/189 := by
  have hcell : cellTotal 1000000 1 (1/100) (8/100) = 2700000000/189 := by
    norm_num [cellTotal, cellIntrinsic, cellTerminal, List.range_succ]
  refine ⟨?_, hcell, by norm_num⟩
  simp only [table, growth_rates, discount_rates, List.map_cons, List.getD,
    List.get?, round2, hcell]
  norm_num [round_eq]

/-- Claim C8 (corrected): the table has one row per growth rate and one
column per discount rate in candidate order, each cell depending only on
its own (growth, discount) pair as the simplified constant-base intrinsic
value divided by one million and rounded to two decimals; for growth below
discount the cell value is the claimed sum-plus-terminal formula. -/
theorem C8_grid (fcf : ℚ) (years : ℕ) :
    (table fcf years).length = growth_rates.length ∧
    (∀ gi, gi < growth_rates.length →
      ((table fcf years).getD gi []).length = discount_rates.length) ∧
    (∀ gi ri, gi < growth_rates.length → ri < discount_rates.length →
      ((table fcf years).getD gi []).getD ri 0 =
        round2 (cellTotal fcf years (growth_rates.getD gi 0)
          (discount_rates.getD ri 0) / 1000000)) ∧
    (∀ g r : ℚ, g < r → cellTotal fcf years g r =
      ((List.range years).map (fun i => fcf / (1 + r) ^ (i + 1))).sum +
        fcf * (1 + g) / (r - g) / (1 + r) ^ years) := by
  refine ⟨rfl, ?_, ?_, ?_⟩
  · intro gi hgi
    have h5 : gi < 5 := hgi
    interval_cases gi <;> rfl
  · intro gi ri hgi hri
    have h5 : gi < 5 := hgi
    have h5r : ri < 5 := hri
    interval_cases gi <;> interval_cases ri <;> rfl
  · intro g r hgr
    rw [cellTotal, cellIntrinsic, cellTerminal,
      if_neg (sub_ne_zero.mpr (ne_of_gt hgr))]

/-- Claim C8 witness: the middle cell of the grid at base 1000000 and one
year, and the closed form of a cell with growth 2% and discount 10%. -/
theorem C8_grid_witness :
    ((table 1000000 1).getD 1 []).getD 2 0 =
      round2 (cellTotal 1000000 1 (growth_rates.getD 1 0)
        (discount_rates.getD 2 0) / 1000000) ∧
    cellTotal 1000000 1 (2/100) (10/100) =
      ((List.range 1).map (fun i => 1000000 / (1 + 10/100 : ℚ) ^ (i + 1))).sum +
        1000000 * (1 + 2/100) / (10/100 - 2/100) / (1 + 10/100 : ℚ) ^ 1 :=
  ⟨(C8_grid 1000000 1).2.2.1 1 2 (by decide) (by decide),
   (C8_grid 1000000 1).2.2.2 (2/100) (10/100) (by norm_num)⟩

end DCFApp
